import Mathlib

/-!
A shallow embedding of `src/main.py` of the RetailCRM_task repository:
a FastAPI gateway with five handlers, each issuing one outbound httpx call
to the RetailCRM v5 API and relaying the upstream JSON response.

Python values appearing in the handlers are modelled as follows:
* Python JSON-serializable objects become the inductive `Json`;
  `Json.dumps` reproduces `json.dumps(..., ensure_ascii=False)` with the
  default separators.
* `datetime.date` becomes `Date`, with `Date.isoformat` producing
  `YYYY-MM-DD`.
* Python `float` appears only as the `price` parameter of `order_create`;
  it is modelled by `PyFloat`, carrying the decimal rendering (Python
  `repr`) that `json.dumps` emits verbatim.  The claims under study concern
  the payload structure, never float formatting.
* An outbound httpx call is a `Request` value; the network is an oracle
  `Request → UpstreamResponse` supplied to each handler.
* A handler run is a `HandlerExec`: the list of outbound calls actually
  issued (in order) together with the local `HandlerResult` — a success
  body under the route status, a `raise HTTPException(status, detail)`,
  or an uncaught Python exception (`pyError`).
-/

/-- Decimal rendering of a Python float, as `repr`/`json.dumps` prints it. -/
structure PyFloat where
  repr : String
deriving DecidableEq, Repr

/-- A Python `datetime.date`. -/
structure Date where
  year : Nat
  month : Nat
  day : Nat
deriving DecidableEq, Repr

/-- Zero-pad a numeral to two digits, as in `date.isoformat`. -/
def pad2 (n : Nat) : String :=
  if n < 10 then "0" ++ toString n else toString n

/-- Zero-pad a numeral to four digits, as in `date.isoformat`. -/
def pad4 (n : Nat) : String :=
  if n < 10 then "000" ++ toString n
  else if n < 100 then "00" ++ toString n
  else if n < 1000 then "0" ++ toString n
  else toString n

/-- Python `date.isoformat()`: `YYYY-MM-DD`. -/
def Date.isoformat (d : Date) : String :=
  pad4 d.year ++ "-" ++ pad2 d.month ++ "-" ++ pad2 d.day

/-- Python objects that the handlers pass to `json.dumps`. -/
inductive Json where
  | null
  | bool (b : Bool)
  | num (n : Int)
  | float (f : PyFloat)
  | str (s : String)
  | arr (elems : List Json)
  | obj (fields : List (String × Json))

/-- Hexadecimal digit, lower case, as produced by `json.dumps`. -/
def hexDigit (n : Nat) : Char :=
  if n < 10 then Char.ofNat (48 + n) else Char.ofNat (87 + n)

/-- Escape one character of a JSON string the way `json.dumps` with
`ensure_ascii=False` does: `"` and `\` get a backslash, the named control
characters use their short escapes, other control characters use
`\u00XX`, and everything else (including non-ASCII) passes through. -/
def escapeChar (c : Char) : String :=
  if c = '"' then "\\\""
  else if c = '\\' then "\\\\"
  else if c = '\n' then "\\n"
  else if c = '\r' then "\\r"
  else if c = '\t' then "\\t"
  else if c = '\x08' then "\\b"
  else if c = '\x0c' then "\\f"
  else if c.toNat < 32 then
    "\\u00" ++ String.singleton (hexDigit (c.toNat / 16))
            ++ String.singleton (hexDigit (c.toNat % 16))
  else String.singleton c

/-- Escape a whole JSON string (without the surrounding quotes). -/
def escapeString (s : String) : String :=
  String.join (s.data.map escapeChar)

mutual

/-- `json.dumps(v, ensure_ascii=False)` with the default separators
`", "` and `": "`. -/
def Json.dumps : Json → String
  | .null => "null"
  | .bool true => "true"
  | .bool false => "false"
  | .num n => toString n
  | .float f => f.repr
  | .str s => "\"" ++ escapeString s ++ "\""
  | .arr elems => "[" ++ Json.dumpsElems elems ++ "]"
  | .obj fields => "\x7b" ++ Json.dumpsFields fields ++ "\x7d"

/-- Comma-joined serialization of a JSON array body. -/
def Json.dumpsElems : List Json → String
  | [] => ""
  | [v] => v.dumps
  | v :: w :: rest => v.dumps ++ ", " ++ Json.dumpsElems (w :: rest)

/-- Comma-joined serialization of a JSON object body. -/
def Json.dumpsFields : List (String × Json) → String
  | [] => ""
  | [(k, v)] => "\"" ++ escapeString k ++ "\": " ++ v.dumps
  | (k, v) :: f :: rest =>
      "\"" ++ escapeString k ++ "\": " ++ v.dumps ++ ", "
        ++ Json.dumpsFields (f :: rest)

end

/-- An optional Python string as a JSON value: `None` serializes as
`null`. -/
def optStr : Option String → Json
  | some s => .str s
  | none => .null

/-- HTTP method of an outbound httpx call. -/
inductive Method where
  | get
  | post
deriving DecidableEq, Repr

/-- One outbound httpx call: method, absolute URL, the `headers=` dict
(values are `Option String` because `os.environ.get` may return `None`),
the `params=` query dict and the `data=` form dict, each in Python dict
insertion order. -/
structure Request where
  method : Method
  url : String
  headers : List (String × Option String)
  query : List (String × String)
  form : List (String × String)
deriving DecidableEq, Repr

/-- What the upstream returns for a call: `r.status_code` and the parsed
`r.json()` body. -/
structure UpstreamResponse where
  status : Nat
  body : Json

/-- Outcome of a handler invocation. -/
inductive HandlerResult where
  /-- `return r.json()` under the route status code (200 by default for
  the GET routes, 201 via `status_code=201` on the POST routes). -/
  | ok (status : Nat) (body : Json)
  /-- `raise HTTPException(status_code=..., detail=...)`. -/
  | httpError (status : Nat) (detail : Json)
  /-- An uncaught Python exception inside the handler body. -/
  | pyError (msg : String)

/-- A handler run: the outbound calls issued, in order, and the local
result. -/
structure HandlerExec where
  calls : List Request
  result : HandlerResult

/-- Line 18: `headers = {'X-API-KEY': os.environ.get("X_API_KEY")}`,
parameterized by the credential value. -/
def headers (key : Option String) : List (String × Option String) :=
  [("X-API-KEY", key)]

/-- The module-level header dict as built at import time from the
process environment.  `os.environ.get` is total (it returns `None` for a
missing variable rather than raising), so module initialization always
succeeds and this function is total. -/
def startupHeaders (env : String → Option String) : List (String × Option String) :=
  headers (env "X_API_KEY")

/-- Python truthiness of an `Optional[str]`: `None` and `""` are falsy. -/
def pyTruthyStr : Option String → Bool
  | none => false
  | some s => s ≠ ""

/-- Python truthiness of an `Optional[date]`: only `None` is falsy
(a `date` object is always truthy). -/
def pyTruthyDate : Option Date → Bool
  | none => false
  | some _ => true

/-- Lines 80–89 of `get_customers`: the `params` dict, built by four
truthiness-guarded insertions in order. -/
def get_customers_params (name email : Option String)
    (date_from date_to : Option Date) : List (String × String) :=
  (if pyTruthyStr name then [("filter[name]", name.getD "")] else [])
  ++ (if pyTruthyStr email then [("filter[email]", email.getD "")] else [])
  ++ (match date_from with
      | some d => if pyTruthyDate (some d) then [("filter[dateFrom]", d.isoformat)] else []
      | none => [])
  ++ (match date_to with
      | some d => if pyTruthyDate (some d) then [("filter[dateTo]", d.isoformat)] else []
      | none => [])

/-- Line 91: the outbound GET issued by `get_customers`. -/
def get_customers_request (name email : Option String)
    (date_from date_to : Option Date) (key : Option String) : Request :=
  { method := .get
    url := "https://usernzt.retailcrm.ru/api/v5/customers"
    headers := headers key
    query := get_customers_params name email date_from date_to
    form := [] }

/-- Handler `get_customers` (lines 58–96): build the filter params,
issue the GET, return `r.json()` on 200 and raise `HTTPException`
otherwise. -/
def get_customers (name email : Option String)
    (date_from date_to : Option Date) (key : Option String)
    (upstream : Request → UpstreamResponse) : HandlerExec :=
  let req := get_customers_request name email date_from date_to key
  let r := upstream req
  { calls := [req]
    result := if r.status = 200 then .ok 200 r.body
              else .httpError r.status r.body }

/-- Lines 138–152 of `customer_create`: the `data` dict, with the keys in
insertion order; this branch is reached only when `birthday` is a date,
since `birthday.isoformat()` is evaluated unconditionally. -/
def customer_create_data (first_name : String) (last_name patronymic : Option String)
    (email : String) (birthday : Date) (sex region city : Option String)
    (number : String) : Json :=
  .obj [
    ("firstName", .str first_name),
    ("lastName", optStr last_name),
    ("patronymic", optStr patronymic),
    ("email", .str email),
    ("birthday", .str birthday.isoformat),
    ("sex", optStr sex),
    ("address", .obj [
      ("region", optStr region),
      ("city", optStr city)]),
    ("phones", .arr [.obj [
      ("number", .str number)]])]

/-- Line 157: the outbound POST issued by `customer_create` when it
reaches the call. -/
def customer_create_request (first_name : String)
    (last_name patronymic : Option String) (email : String) (birthday : Date)
    (sex region city : Option String) (number : String)
    (key : Option String) : Request :=
  { method := .post
    url := "https://usernzt.retailcrm.ru/api/v5/customers/create"
    headers := headers key
    query := []
    form := [("customer",
      (customer_create_data first_name last_name patronymic email birthday
        sex region city number).dumps)] }

/-- The exception text raised at line 143 when `birthday` is `None`. -/
def birthdayNoneMsg : String :=
  "AttributeError: NoneType object has no attribute isoformat"

/-- Handler `customer_create` (lines 127–161).  Line 143 evaluates
`birthday.isoformat()` unconditionally, so when the optional `birthday`
parameter is absent the dict construction raises `AttributeError` before
the outbound call; otherwise the JSON payload is sent as the single form
field `customer` and the response is relayed (201 on success). -/
def customer_create (first_name : String)
    (last_name patronymic : Option String) (email : String)
    (birthday : Option Date) (sex region city : Option String)
    (number : String) (key : Option String)
    (upstream : Request → UpstreamResponse) : HandlerExec :=
  match birthday with
  | none => { calls := [], result := .pyError birthdayNoneMsg }
  | some b =>
    let req := customer_create_request first_name last_name patronymic email b
      sex region city number key
    let r := upstream req
    { calls := [req]
      result := if r.status = 201 then .ok 201 r.body
                else .httpError r.status r.body }

/-- Lines 197–199 of `get_orders`: the single filter param; httpx
renders the integer value with `str`. -/
def get_orders_request (customer_id : Int) (key : Option String) : Request :=
  { method := .get
    url := "https://usernzt.retailcrm.ru/api/v5/orders"
    headers := headers key
    query := [("filter[customerId]", toString customer_id)]
    form := [] }

/-- Handler `get_orders` (lines 196–205). -/
def get_orders (customer_id : Int) (key : Option String)
    (upstream : Request → UpstreamResponse) : HandlerExec :=
  let req := get_orders_request customer_id key
  let r := upstream req
  { calls := [req]
    result := if r.status = 200 then .ok 200 r.body
              else .httpError r.status r.body }

/-- Lines 244–255 of `order_create`: the `data` dict. -/
def order_create_data (customer_id order_number : Int) (product_name : String)
    (quantity : Int) (price : PyFloat) : Json :=
  .obj [
    ("customer", .obj [
      ("id", .num customer_id)]),
    ("number", .num order_number),
    ("items", .arr [.obj [
      ("productName", .str product_name),
      ("quantity", .num quantity),
      ("initialPrice", .float price)]])]

/-- Line 259: the outbound POST issued by `order_create`. -/
def order_create_request (customer_id order_number : Int)
    (product_name : String) (quantity : Int) (price : PyFloat)
    (key : Option String) : Request :=
  { method := .post
    url := "https://usernzt.retailcrm.ru/api/v5/orders/create"
    headers := headers key
    query := []
    form := [("order",
      (order_create_data customer_id order_number product_name quantity
        price).dumps)] }

/-- Handler `order_create` (lines 237–263). -/
def order_create (customer_id order_number : Int) (product_name : String)
    (quantity : Int) (price : PyFloat) (key : Option String)
    (upstream : Request → UpstreamResponse) : HandlerExec :=
  let req := order_create_request customer_id order_number product_name
    quantity price key
  let r := upstream req
  { calls := [req]
    result := if r.status = 201 then .ok 201 r.body
              else .httpError r.status r.body }

/-- Lines 295–299 of `order_payment`: the `data` dict, with `type` and
`status` fixed. -/
def order_payment_data (order_id : Int) : Json :=
  .obj [
    ("order", .obj [
      ("id", .num order_id)]),
    ("type", .str "cash"),
    ("status", .str "paid")]

/-- Line 301: the outbound POST issued by `order_payment`. -/
def order_payment_request (order_id : Int) (key : Option String) : Request :=
  { method := .post
    url := "https://usernzt.retailcrm.ru/api/v5/orders/payments/create"
    headers := headers key
    query := []
    form := [("payment", (order_payment_data order_id).dumps)] }

/-- Handler `order_payment` (lines 292–305). -/
def order_payment (order_id : Int) (key : Option String)
    (upstream : Request → UpstreamResponse) : HandlerExec :=
  let req := order_payment_request order_id key
  let r := upstream req
  { calls := [req]
    result := if r.status = 201 then .ok 201 r.body
              else .httpError r.status r.body }

example : (get_customers (some "Ivan") none (some ⟨2023, 1, 1⟩) none (some "k")
    (fun _ => ⟨200, .null⟩)).calls =
    [{ method := .get
       url := "https://usernzt.retailcrm.ru/api/v5/customers"
       headers := [("X-API-KEY", some "k")]
       query := [("filter[name]", "Ivan"), ("filter[dateFrom]", "2023-01-01")]
       form := [] }] := by decide

example : (customer_create_data "Ivan" none none "ivan@example.com"
    ⟨2023, 1, 1⟩ none none none "+375291234567").dumps =
    "\x7b\"firstName\": \"Ivan\", \"lastName\": null, \"patronymic\": null, \"email\": \"ivan@example.com\", \"birthday\": \"2023-01-01\", \"sex\": null, \"address\": \x7b\"region\": null, \"city\": null\x7d, \"phones\": [\x7b\"number\": \"+375291234567\"\x7d]\x7d" := by
  rfl

example : (order_payment_data 7).dumps =
    "\x7b\"order\": \x7b\"id\": 7\x7d, \"type\": \"cash\", \"status\": \"paid\"\x7d" := by
  rfl

/-- The empty-string filter entry, for stating when a supplied string
filter is included in the outbound query. -/
def strFilter (k : String) : Option String → List (String × String)
  | some s => if s = "" then [] else [(k, s)]
  | none => []

/-- The date filter entry: included exactly when supplied, rendered ISO. -/
def dateFilter (k : String) : Option Date → List (String × String)
  | some d => [(k, d.isoformat)]
  | none => []

/-- C1: for every handler, if the upstream call returns the documented
success status (200 for the two reads, 201 for the three writes), the
local response body is exactly the upstream JSON body with no remapping,
under the documented local success status.  For `customer_create` the
upstream call exists only when `birthday` is supplied, so that part is
stated for `birthday = some b`. -/
theorem c1_success_passthrough :
    (∀ name email date_from date_to key upstream,
      (upstream (get_customers_request name email date_from date_to key)).status = 200 →
      (get_customers name email date_from date_to key upstream).result =
        .ok 200 (upstream (get_customers_request name email date_from date_to key)).body)
  ∧ (∀ fn ln pat em (b : Date) sex reg city numb key upstream,
      (upstream (customer_create_request fn ln pat em b sex reg city numb key)).status = 201 →
      (customer_create fn ln pat em (some b) sex reg city numb key upstream).result =
        .ok 201 (upstream (customer_create_request fn ln pat em b sex reg city numb key)).body)
  ∧ (∀ cid key upstream,
      (upstream (get_orders_request cid key)).status = 200 →
      (get_orders cid key upstream).result =
        .ok 200 (upstream (get_orders_request cid key)).body)
  ∧ (∀ cid onum pn qty pr key upstream,
      (upstream (order_create_request cid onum pn qty pr key)).status = 201 →
      (order_create cid onum pn qty pr key upstream).result =
        .ok 201 (upstream (order_create_request cid onum pn qty pr key)).body)
  ∧ (∀ oid key upstream,
      (upstream (order_payment_request oid key)).status = 201 →
      (order_payment oid key upstream).result =
        .ok 201 (upstream (order_payment_request oid key)).body) := by
  refine ⟨?_, ?_, ?_, ?_, ?_⟩ <;> intros <;>
    simp [get_customers, customer_create, get_orders, order_create,
      order_payment, *]

/-- Witness for C1: each handler run against an upstream oracle that
answers with its success status and a concrete body. -/
theorem c1_success_passthrough_witness :
    (get_customers none none none none none
      (fun _ => ⟨200, .str "list"⟩)).result = .ok 200 (.str "list")
  ∧ (customer_create "Ivan" none none "ivan@example.com" (some ⟨2023, 1, 1⟩)
      none none none "+375291234567" none
      (fun _ => ⟨201, .str "created"⟩)).result = .ok 201 (.str "created")
  ∧ (get_orders 0 none (fun _ => ⟨200, .str "orders"⟩)).result =
      .ok 200 (.str "orders")
  ∧ (order_create 0 999 "tires" 4 ⟨"0.99"⟩ none
      (fun _ => ⟨201, .str "order"⟩)).result = .ok 201 (.str "order")
  ∧ (order_payment 0 none (fun _ => ⟨201, .str "payment"⟩)).result =
      .ok 201 (.str "payment") :=
  ⟨c1_success_passthrough.1 none none none none none _ rfl,
   c1_success_passthrough.2.1 "Ivan" none none "ivan@example.com" ⟨2023, 1, 1⟩
     none none none "+375291234567" none _ rfl,
   c1_success_passthrough.2.2.1 0 none _ rfl,
   c1_success_passthrough.2.2.2.1 0 999 "tires" 4 ⟨"0.99"⟩ none _ rfl,
   c1_success_passthrough.2.2.2.2 0 none _ rfl⟩

/-- C2: for every handler, if the upstream call returns any status other
than the documented success status, the handler raises `HTTPException`
carrying the upstream status code and the upstream JSON body, untouched,
as the error detail. -/
theorem c2_error_passthrough :
    (∀ name email date_from date_to key upstream,
      (upstream (get_customers_request name email date_from date_to key)).status ≠ 200 →
      (get_customers name email date_from date_to key upstream).result =
        .httpError (upstream (get_customers_request name email date_from date_to key)).status
          (upstream (get_customers_request name email date_from date_to key)).body)
  ∧ (∀ fn ln pat em (b : Date) sex reg city numb key upstream,
      (upstream (customer_create_request fn ln pat em b sex reg city numb key)).status ≠ 201 →
      (customer_create fn ln pat em (some b) sex reg city numb key upstream).result =
        .httpError (upstream (customer_create_request fn ln pat em b sex reg city numb key)).status
          (upstream (customer_create_request fn ln pat em b sex reg city numb key)).body)
  ∧ (∀ cid key upstream,
      (upstream (get_orders_request cid key)).status ≠ 200 →
      (get_orders cid key upstream).result =
        .httpError (upstream (get_orders_request cid key)).status
          (upstream (get_orders_request cid key)).body)
  ∧ (∀ cid onum pn qty pr key upstream,
      (upstream (order_create_request cid onum pn qty pr key)).status ≠ 201 →
      (order_create cid onum pn qty pr key upstream).result =
        .httpError (upstream (order_create_request cid onum pn qty pr key)).status
          (upstream (order_create_request cid onum pn qty pr key)).body)
  ∧ (∀ oid key upstream,
      (upstream (order_payment_request oid key)).status ≠ 201 →
      (order_payment oid key upstream).result =
        .httpError (upstream (order_payment_request oid key)).status
          (upstream (order_payment_request oid key)).body) := by
  refine ⟨?_, ?_, ?_, ?_, ?_⟩ <;> intros <;>
    simp [get_customers, customer_create, get_orders, order_create,
      order_payment, *]

/-- Witness for C2: each handler run against an upstream oracle that
answers 400 with a concrete error body. -/
theorem c2_error_passthrough_witness :
    (get_customers none none none none none
      (fun _ => ⟨400, .str "bad"⟩)).result = .httpError 400 (.str "bad")
  ∧ (customer_create "Ivan" none none "ivan@example.com" (some ⟨2023, 1, 1⟩)
      none none none "+375291234567" none
      (fun _ => ⟨400, .str "bad"⟩)).result = .httpError 400 (.str "bad")
  ∧ (get_orders 0 none (fun _ => ⟨400, .str "bad"⟩)).result =
      .httpError 400 (.str "bad")
  ∧ (order_create 0 999 "tires" 4 ⟨"0.99"⟩ none
      (fun _ => ⟨400, .str "bad"⟩)).result = .httpError 400 (.str "bad")
  ∧ (order_payment 0 none (fun _ => ⟨400, .str "bad"⟩)).result =
      .httpError 400 (.str "bad") :=
  ⟨c2_error_passthrough.1 none none none none none _ (by decide),
   c2_error_passthrough.2.1 "Ivan" none none "ivan@example.com" ⟨2023, 1, 1⟩
     none none none "+375291234567" none _ (by decide),
   c2_error_passthrough.2.2.1 0 none _ (by decide),
   c2_error_passthrough.2.2.2.1 0 999 "tires" 4 ⟨"0.99"⟩ none _ (by decide),
   c2_error_passthrough.2.2.2.2 0 none _ (by decide)⟩

/-- C3: the claim says every valid-typed input leads to exactly one
outbound call with no local error first; the code contradicts its own
parameter declaration (`birthday` is declared `Optional` with default
`None`), because line 143 calls `birthday.isoformat()` unconditionally.
At the failing input — `birthday` omitted — the handler raises
`AttributeError` before any outbound call, whatever the upstream would
answer. -/
theorem c3_birthday_none_no_call :
    ∀ upstream,
      customer_create "Ivan" none none "ivan@example.com" none
        none none none "+375291234567" none upstream =
      { calls := [], result := .pyError birthdayNoneMsg } := by
  intro upstream
  rfl

/-- Counterexample to C4 as stated: at the valid-typed input with
`birthday` omitted, no outbound request is made at all (the call list is
empty and the handler dies with `AttributeError`), so in particular no
form body with a `customer` field is sent. -/
theorem c4_counterexample :
    (customer_create "Ivan" none none "ivan@example.com" none
      none none none "+375291234567" none
      (fun _ => ⟨201, .str "created"⟩)).calls = []
  ∧ (customer_create "Ivan" none none "ivan@example.com" none
      none none none "+375291234567" none
      (fun _ => ⟨201, .str "created"⟩)).result = .pyError birthdayNoneMsg :=
  ⟨rfl, rfl⟩

/-- C4 (amended): for every valid-typed input in which the optional
`birthday` parameter is supplied, the single outbound request is a POST
to the upstream create-customer endpoint whose form body has the single
field `customer`, holding the JSON serialization of exactly
`{firstName, lastName, patronymic, email, birthday (ISO date), sex,
address:{region, city}, phones:[{number}]}` with the snake_case
parameters mapped to these camelCase keys and the omitted optional
parameters other than `birthday` serialized as `null`. -/
theorem c4_customer_form_field :
    ∀ fn ln pat em (b : Date) sex reg city numb key upstream,
      (customer_create fn ln pat em (some b) sex reg city numb key
        upstream).calls =
        [customer_create_request fn ln pat em b sex reg city numb key]
    ∧ (customer_create_request fn ln pat em b sex reg city numb key).method =
        .post
    ∧ (customer_create_request fn ln pat em b sex reg city numb key).url =
        "https://usernzt.retailcrm.ru/api/v5/customers/create"
    ∧ (customer_create_request fn ln pat em b sex reg city numb key).query = []
    ∧ (customer_create_request fn ln pat em b sex reg city numb key).form =
        [("customer", Json.dumps (.obj [
          ("firstName", .str fn),
          ("lastName", optStr ln),
          ("patronymic", optStr pat),
          ("email", .str em),
          ("birthday", .str b.isoformat),
          ("sex", optStr sex),
          ("address", .obj [("region", optStr reg), ("city", optStr city)]),
          ("phones", .arr [.obj [("number", .str numb)]])]))] := by
  intros
  exact ⟨rfl, rfl, rfl, rfl, rfl⟩

/-- C5: for every valid-typed input, `order_create` issues exactly one
outbound POST, to the upstream create-order endpoint, whose form body has
the single field `order` holding the JSON serialization of exactly
`{customer:{id: customer_id}, number: order_number,
items:[{productName, quantity, initialPrice}]}`. -/
theorem c5_order_form_field :
    ∀ cid onum pn qty pr key upstream,
      (order_create cid onum pn qty pr key upstream).calls =
        [order_create_request cid onum pn qty pr key]
    ∧ (order_create_request cid onum pn qty pr key).method = .post
    ∧ (order_create_request cid onum pn qty pr key).url =
        "https://usernzt.retailcrm.ru/api/v5/orders/create"
    ∧ (order_create_request cid onum pn qty pr key).query = []
    ∧ (order_create_request cid onum pn qty pr key).form =
        [("order", Json.dumps (.obj [
          ("customer", .obj [("id", .num cid)]),
          ("number", .num onum),
          ("items", .arr [.obj [
            ("productName", .str pn),
            ("quantity", .num qty),
            ("initialPrice", .float pr)]])]))] := by
  intros
  exact ⟨rfl, rfl, rfl, rfl, rfl⟩

/-- C6: for every order ID, `order_payment` issues exactly one outbound
POST to the upstream create-payment endpoint whose form body has the
single field `payment` holding the JSON serialization of exactly
`{order:{id: order_id}, type: "cash", status: "paid"}`; `type` and
`status` are literals in the formula, independent of the input. -/
theorem c6_payment_form_field :
    ∀ oid key upstream,
      (order_payment oid key upstream).calls = [order_payment_request oid key]
    ∧ (order_payment_request oid key).method = .post
    ∧ (order_payment_request oid key).url =
        "https://usernzt.retailcrm.ru/api/v5/orders/payments/create"
    ∧ (order_payment_request oid key).query = []
    ∧ (order_payment_request oid key).form =
        [("payment", Json.dumps (.obj [
          ("order", .obj [("id", .num oid)]),
          ("type", .str "cash"),
          ("status", .str "paid")]))] := by
  intros
  exact ⟨rfl, rfl, rfl, rfl, rfl⟩

/-- Counterexample to C7 as stated: the name filter is supplied as the
(valid-typed) empty string, yet the outbound query string contains no
`filter[name]` entry at all — inclusion is not "if and only if supplied". -/
theorem c7_counterexample :
    (get_customers (some "") none none none none
      (fun _ => ⟨200, .str "list"⟩)).calls =
      [get_customers_request (some "") none none none none]
  ∧ (get_customers_request (some "") none none none none).query = [] :=
  ⟨rfl, rfl⟩

/-- C7 (amended): each of the four optional filters is included in the
outbound query string, under the keys `filter[name]`, `filter[email]`,
`filter[dateFrom]`, `filter[dateTo]`, if and only if it is supplied and —
for the two string filters — non-empty; the date filters are rendered in
ISO `YYYY-MM-DD` format and no other query parameters are added. -/
theorem c7_customer_filters :
    ∀ name email date_from date_to key,
      (get_customers_request name email date_from date_to key).query =
        strFilter "filter[name]" name ++ strFilter "filter[email]" email
        ++ dateFilter "filter[dateFrom]" date_from
        ++ dateFilter "filter[dateTo]" date_to := by
  intro name email date_from date_to key
  cases name <;> cases email <;> cases date_from <;> cases date_to <;>
    simp [get_customers_request, get_customers_params, strFilter, dateFilter,
      pyTruthyStr, pyTruthyDate]

/-- C8: for every customer ID, `get_orders` issues exactly one outbound
GET to the upstream orders endpoint whose query string is exactly the one
parameter `filter[customerId]`, the customer ID from the path segment. -/
theorem c8_orders_filter :
    ∀ (cid : Int) key upstream,
      (get_orders cid key upstream).calls = [get_orders_request cid key]
    ∧ (get_orders_request cid key).method = .get
    ∧ (get_orders_request cid key).url =
        "https://usernzt.retailcrm.ru/api/v5/orders"
    ∧ (get_orders_request cid key).query =
        [("filter[customerId]", toString cid)]
    ∧ (get_orders_request cid key).form = [] := by
  intros
  exact ⟨rfl, rfl, rfl, rfl, rfl⟩

/-- C9: when the `X_API_KEY` environment variable is absent, module
initialization still succeeds — `startupHeaders` is a total function
because `os.environ.get` returns `None` rather than raising — and every
outbound request of every handler carries the API-key header with the
absent-credential placeholder `None` as its value. -/
theorem c9_missing_key :
    ∀ env : String → Option String, env "X_API_KEY" = none →
      startupHeaders env = [("X-API-KEY", none)]
    ∧ (∀ name email date_from date_to,
        (get_customers_request name email date_from date_to
          (env "X_API_KEY")).headers = [("X-API-KEY", none)])
    ∧ (∀ fn ln pat em b sex reg city numb,
        (customer_create_request fn ln pat em b sex reg city numb
          (env "X_API_KEY")).headers = [("X-API-KEY", none)])
    ∧ (∀ cid,
        (get_orders_request cid (env "X_API_KEY")).headers =
          [("X-API-KEY", none)])
    ∧ (∀ cid onum pn qty pr,
        (order_create_request cid onum pn qty pr (env "X_API_KEY")).headers =
          [("X-API-KEY", none)])
    ∧ (∀ oid,
        (order_payment_request oid (env "X_API_KEY")).headers =
          [("X-API-KEY", none)]) := by
  intro env h
  refine ⟨?_, ?_, ?_, ?_, ?_, ?_⟩ <;> intros <;>
    simp [startupHeaders, headers, get_customers_request,
      customer_create_request, get_orders_request, order_create_request,
      order_payment_request, h]

/-- Witness for C9: the empty environment. -/
theorem c9_missing_key_witness :
    startupHeaders (fun _ => none) = [("X-API-KEY", none)]
  ∧ (get_customers_request none none none none
      ((fun _ => none) "X_API_KEY")).headers = [("X-API-KEY", none)]
  ∧ (customer_create_request "Ivan" none none "ivan@example.com" ⟨2023, 1, 1⟩
      none none none "+375291234567"
      ((fun _ => none) "X_API_KEY")).headers = [("X-API-KEY", none)]
  ∧ (get_orders_request 0 ((fun _ => none) "X_API_KEY")).headers =
      [("X-API-KEY", none)]
  ∧ (order_create_request 0 999 "tires" 4 ⟨"0.99"⟩
      ((fun _ => none) "X_API_KEY")).headers = [("X-API-KEY", none)]
  ∧ (order_payment_request 0 ((fun _ => none) "X_API_KEY")).headers =
      [("X-API-KEY", none)] :=
  ⟨(c9_missing_key (fun _ => none) rfl).1,
   (c9_missing_key (fun _ => none) rfl).2.1 none none none none,
   (c9_missing_key (fun _ => none) rfl).2.2.1 "Ivan" none none
     "ivan@example.com" ⟨2023, 1, 1⟩ none none none "+375291234567",
   (c9_missing_key (fun _ => none) rfl).2.2.2.1 0,
   (c9_missing_key (fun _ => none) rfl).2.2.2.2.1 0 999 "tires" 4 ⟨"0.99"⟩,
   (c9_missing_key (fun _ => none) rfl).2.2.2.2.2 0⟩

/-- C10: supplying the empty string for the name or email filter of the
list-customers operation behaves exactly like omitting that filter — the
whole handler run (outbound call and local result) is identical, so an
empty-string filter value is never forwarded upstream. -/
theorem c10_empty_string_filters :
    (∀ email date_from date_to key upstream,
      get_customers (some "") email date_from date_to key upstream =
        get_customers none email date_from date_to key upstream)
  ∧ (∀ name date_from date_to key upstream,
      get_customers name (some "") date_from date_to key upstream =
        get_customers name none date_from date_to key upstream) := by
  constructor <;> intros <;> rfl
